import Mathlib

/-!
Verification development for the FIEMAP stressor
(`src/stress-tool/stress-ng/stress-fiemap.c`).

The C file is shallowly embedded below.  External inputs (kernel replies to
`ioctl(FS_IOC_FIEMAP, ...)`, `write`, `lseek`, `fallocate`, `fork`,
`keep_stressing`, random numbers from `stress_mwc64`) are modelled as
explicit environment records; each embedded function is a pure Lean
function of its environment, faithful to the control flow of the C source.
-/

/-- Number of forked FIEMAP query workers (`MAX_FIEMAP_PROCS`, line 27). -/
def MAX_FIEMAP_PROCS : Nat := 4

/-- Iterations between forced `fdatasync` flushes (`COUNT_MAX`, line 28). -/
def COUNT_MAX : Nat := 128

/-- Modelled from the spec: `MIN_FIEMAP_SIZE` is defined in `stress-ng.h`,
which is not part of this repository's sources.  The spec only requires a
positive minimum per-instance file size exceeding the 1-byte write probe;
the conventional value is 1 MiB. -/
def MIN_FIEMAP_SIZE : Nat := 1048576

/-- Modelled from the spec: `MAX_FIEMAP_SIZE` from `stress-ng.h` (absent from
the sources), the upper bound of the valid configured range. -/
def MAX_FIEMAP_SIZE : Nat := 2 ^ 38

/-- Modelled from the spec: `DEFAULT_FIEMAP_SIZE` from `stress-ng.h` (absent
from the sources), the file size used when no option is given. -/
def DEFAULT_FIEMAP_SIZE : Nat := 16 * 1048576

/-- Modelled from the spec: `MAXIMIZED_FILE_SIZE` from `stress-ng.h` (absent
from the sources), the file size used under `OPT_FLAGS_MAXIMIZE`. -/
def MAXIMIZED_FILE_SIZE : Nat := MAX_FIEMAP_SIZE

/-- Process exit status: success. -/
def EXIT_SUCCESS : Nat := 0

/-- Process exit status: generic failure. -/
def EXIT_FAILURE : Nat := 1

/-- Modelled from the spec: the distinguished exit status for resource
exhaustion (shared-memory allocation failure), from `stress-ng.h`. -/
def EXIT_NO_RESOURCE : Nat := 3

/-- Modelled from the spec: the distinguished exit status reporting that the
stressor is inapplicable on this filesystem, from `stress-ng.h`. -/
def EXIT_NOT_IMPLEMENTED : Nat := 4

/-- The error codes the stressor inspects (`errno` values); all codes it
never compares against are collapsed into `other`. -/
inductive Errno where
  | ENOSPC
  | EAGAIN
  | EINTR
  | EOPNOTSUPP
  | other (code : Nat)
  deriving DecidableEq, Repr

/-- The fields of `struct fiemap` the stressor reads or writes:
requested logical length, requested extent-record capacity, and the
kernel-reported number of mapped extents. -/
structure Fiemap where
  fm_length : Nat
  fm_extent_count : Nat
  fm_mapped_extents : Nat
  deriving DecidableEq, Repr

/-- `~0UL` as a 64-bit `fm_length`: query the whole file (lines 162, 295). -/
def FM_LENGTH_ALL : Nat := 2 ^ 64 - 1

/-- The modulus of the 64-bit unsigned counters: `uint64_t` arithmetic
wraps at `2 ^ 64`. -/
def UINT64_MOD : Nat := 2 ^ 64

/-- The shared progress counters: one `uint64_t` slot per query worker
(`uint64_t *counters`, `MAX_FIEMAP_PROCS` slots); a slot's value is a
`Nat` and every operation on it wraps explicitly at `2 ^ 64`. -/
def Counters : Type := Fin MAX_FIEMAP_PROCS → Nat

/-- Embedding of `stress_fiemap_count` (lines 62-73): the racy aggregate
accumulates the slots into a `uint64_t`, each addition wrapping at
`2 ^ 64`; the function only reads the slots (the value is then published
with `set_counter` and `keep_stressing` is consulted, both external). -/
def stress_fiemap_count (counters : Counters) : Nat :=
  (List.finRange MAX_FIEMAP_PROCS).foldl
    (fun counter i => (counter + counters i) % UINT64_MOD) 0

/-- Embedding of `(*counter)++` (line 209): a worker increments the single
`uint64_t` slot it owns — wrapping at `2 ^ 64` — and leaves every other
slot untouched. -/
def incr_slot (counters : Counters) (i : Fin MAX_FIEMAP_PROCS) : Counters :=
  Function.update counters i ((counters i + 1) % UINT64_MOD)

/-! ### Extent Query Engine: one cycle of `stress_fiemap_ioctl` -/

/-- External inputs of one iteration of the `stress_fiemap_ioctl` do-while
loop (lines 153-214): whether `calloc` succeeds, the kernel's answer to the
discovery `ioctl` (an errno, or the reported `fm_mapped_extents`),
`keep_stressing` after the discovery call (line 178), whether `realloc`
succeeds, the kernel's answer to the populate `ioctl` as a function of the
request it is handed, and `keep_stressing` at the loop condition
(line 214). -/
structure CycleEnv where
  callocOk : Bool
  discovery : Except Errno Nat
  keep : Bool
  reallocOk : Bool
  populate : Fiemap → Except Errno Nat
  keepLoop : Bool

/-- How one query cycle ends, mirroring the exits of the loop body. -/
inductive CycleOutcome where
  | callocFailed
  | notSupported
  | discoveryFailed (e : Errno)
  | stopRequested
  | reallocFailed
  | populateFailed (e : Errno)
  | success (reported : Nat)
  deriving DecidableEq, Repr

/-- Result of one query cycle: its outcome, the request handed to the
populate `ioctl` (if that call was reached), whether the worker's counter
slot was incremented, and whether the loop goes on to another cycle. -/
structure CycleResult where
  outcome : CycleOutcome
  populateReq : Option Fiemap
  incremented : Bool
  continues : Bool
  deriving DecidableEq, Repr

/-- Embedding of one iteration of `stress_fiemap_ioctl` (lines 153-214).
`calloc` gives a zeroed `struct fiemap`, `fm_length` is set to `~0UL`
(capacity zero: discovery call).  On discovery failure, `EOPNOTSUPP` is the
skip case and anything else a reported failure; both leave the loop.  On
success the buffer is grown to `fm_mapped_extents` records,
`fm_extent_count` is set to that count and `fm_mapped_extents` reset to 0,
and the populate `ioctl` is issued.  A failed populate call leaves the
loop; a successful one increments the worker's slot and the loop continues
when `keep_stressing` allows. -/
def stress_fiemap_ioctl_cycle (env : CycleEnv) : CycleResult :=
  if !env.callocOk then ⟨.callocFailed, none, false, false⟩
  else
    match env.discovery with
    | .error e =>
      if e = Errno.EOPNOTSUPP then ⟨.notSupported, none, false, false⟩
      else ⟨.discoveryFailed e, none, false, false⟩
    | .ok mapped =>
      if !env.keep then ⟨.stopRequested, none, false, false⟩
      else if !env.reallocOk then ⟨.reallocFailed, none, false, false⟩
      else
        let req : Fiemap := ⟨FM_LENGTH_ALL, mapped, 0⟩
        match env.populate req with
        | .error e => ⟨.populateFailed e, some req, false, false⟩
        | .ok reported => ⟨.success reported, some req, true, env.keepLoop⟩

/-! ### Fragmentation Driver: `stress_fiemap_writer` -/

/-- External inputs of one iteration of the `stress_fiemap_writer` do-while
loop (lines 97-134): the two `stress_mwc64` draws, whether `lseek`
succeeds, the three `keep_stressing` results returned through
`stress_fiemap_count` (lines 103, 114, 131), the `write` result (line 105:
`none` is success, `some e` a failure with errno `e`), the `fallocate`
result (line 123), and `keep_stressing` at the loop condition
(line 134). -/
structure WriterEnv where
  rnd1 : Nat
  lseekOk : Bool
  keep1 : Bool
  writeRes : Option Errno
  keep2 : Bool
  rnd2 : Nat
  fallocRes : Option Errno
  keep3 : Bool
  keepLoop : Bool

/-- How one driver iteration leaves the loop body: fall out of the loop
(every `break`, and a false loop condition, lead to `rc = EXIT_SUCCESS`),
jump to `tidy` with `rc` still `EXIT_FAILURE` (the fatal write error,
line 111), or proceed to the next iteration carrying the `punch_hole`
flag. -/
inductive IterOutcome where
  | exitSuccess
  | exitFailure
  | nextIter (punch_hole : Bool)
  deriving DecidableEq, Repr

/-- Result of one driver iteration: how it left the body, the shared
counter slots afterwards, the block-aligned offset handed to
`lseek`/`write`, and the offset handed to `fallocate` if a hole punch was
issued. -/
structure IterResult where
  out : IterOutcome
  counters : Counters
  writeOffset : Nat
  punchOffset : Option Nat

/-- Embedding of the hole-punch half of the loop body (lines 114-133),
entered after the write step when neither `break` nor `continue` fired:
the second `keep_stressing` check, the `punch_hole` gate, the `fallocate`
call at an unaligned random offset, the lazy capability disable on
`EOPNOTSUPP`, the `continue` on `ENOSPC`, the third `keep_stressing`
check, and finally the loop condition. -/
def writer_punch_step (punch_hole : Bool) (counters : Counters)
    (env : WriterEnv) (len offset : Nat) : IterResult :=
  if !env.keep2 then ⟨.exitSuccess, counters, offset, none⟩
  else if !punch_hole then
    ⟨if env.keepLoop then .nextIter punch_hole else .exitSuccess,
      counters, offset, none⟩
  else
    let off2 := env.rnd2 % len
    match env.fallocRes with
    | some e =>
      if e = Errno.ENOSPC then
        ⟨if env.keepLoop then .nextIter punch_hole else .exitSuccess,
          counters, offset, some off2⟩
      else
        let punch' := if e = Errno.EOPNOTSUPP then false else punch_hole
        if !env.keep3 then ⟨.exitSuccess, counters, offset, some off2⟩
        else
          ⟨if env.keepLoop then .nextIter punch' else .exitSuccess,
            counters, offset, some off2⟩
    | none =>
      if !env.keep3 then ⟨.exitSuccess, counters, offset, some off2⟩
      else
        ⟨if env.keepLoop then .nextIter punch_hole else .exitSuccess,
          counters, offset, some off2⟩

/-- Embedding of one iteration of the `stress_fiemap_writer` do-while loop
(lines 97-134).  `len = fiemap_bytes - sizeof(buf)` is passed in by the
wrapper.  The write offset is a random 64-bit draw reduced mod `len` and
aligned down to an 8 KiB boundary (`& ~0x1fffUL`, line 100).  A failed
`lseek` or a false `keep_stressing` breaks out; a failed `write` retries
on `ENOSPC`, proceeds on `EAGAIN`/`EINTR`, and is fatal otherwise. -/
def stress_fiemap_writer_iter (len : Nat) (punch_hole : Bool)
    (counters : Counters) (env : WriterEnv) : IterResult :=
  let offset := Nat.land (env.rnd1 % len) 0xffffffffffffe000
  if !env.lseekOk then ⟨.exitSuccess, counters, offset, none⟩
  else if !env.keep1 then ⟨.exitSuccess, counters, offset, none⟩
  else
    match env.writeRes with
    | some e =>
      if e = Errno.ENOSPC then
        ⟨if env.keepLoop then .nextIter punch_hole else .exitSuccess,
          counters, offset, none⟩
      else if e = Errno.EAGAIN || e = Errno.EINTR then
        writer_punch_step punch_hole counters env len offset
      else ⟨.exitFailure, counters, offset, none⟩
    | none => writer_punch_step punch_hole counters env len offset

/-- The driver loop, one `WriterEnv` per executed iteration: it threads the
`punch_hole` flag and the shared counters through the iterations and stops
at the first iteration that leaves the body, returning the `rc` of
`stress_fiemap_writer` together with the trace of iteration results. -/
def stress_fiemap_writer_loop (len : Nat) (punch_hole : Bool)
    (counters : Counters) : List WriterEnv → Nat × List IterResult
  | [] => (EXIT_SUCCESS, [])
  | env :: rest =>
    let r := stress_fiemap_writer_iter len punch_hole counters env
    match r.out with
    | .exitSuccess => (EXIT_SUCCESS, [r])
    | .exitFailure => (EXIT_FAILURE, [r])
    | .nextIter p' =>
      let res := stress_fiemap_writer_loop len p' r.counters rest
      (res.1, r :: res.2)

/-- Result of `stress_fiemap_writer`: the returned `rc`, the iteration
trace, and whether the shared file descriptor was closed before
returning. -/
structure WriterResult where
  rc : Nat
  iters : List IterResult
  fdClosed : Bool

/-- Embedding of `stress_fiemap_writer` (lines 81-140).  `punch_hole`
starts `true`, `len = fiemap_bytes - sizeof(buf)` with a 1-byte probe
buffer.  Both exits of the loop — the fatal write error that jumps to
`tidy` with `rc = EXIT_FAILURE`, and every other exit, which sets
`rc = EXIT_SUCCESS` and falls into `tidy` — close the file descriptor at
`tidy` (line 137) before returning `rc`. -/
def stress_fiemap_writer (fiemap_bytes : Nat) (counters : Counters)
    (envs : List WriterEnv) : WriterResult :=
  let len := fiemap_bytes - 1
  let r := stress_fiemap_writer_loop len true counters envs
  if r.1 = EXIT_FAILURE then ⟨r.1, r.2, true⟩
  else ⟨r.1, r.2, true⟩

/-! ### Worker Fan-Out Supervisor: `stress_fiemap` -/

/-- Embedding of lines 264-266: the configured size is divided by the
number of concurrent instances and clamped up to `MIN_FIEMAP_SIZE`. -/
def effective_fiemap_bytes (S num_instances : Nat) : Nat :=
  let b := S / num_instances
  if b < MIN_FIEMAP_SIZE then MIN_FIEMAP_SIZE else b

/-- How the worker spawn loop (lines 309-318) ends: `keep_stressing`
turned false before attempt `n` (`rc = EXIT_SUCCESS`, jump to `reap` with
`n` workers spawned), `fork` failed at attempt `n` (jump to `reap` with
`n` workers spawned and `rc` untouched), or all attempts succeeded. -/
inductive SpawnOut where
  | stopEarly (n : Nat)
  | forkFail (n : Nat)
  | all
  deriving DecidableEq, Repr

/-- Embedding of the spawn loop (lines 309-318): attempts run at indices
`n, n+1, ...` while fuel remains; `keep n` is `keep_stressing` before
attempt `n` and `forkOk n` tells whether `fork` succeeds there. -/
def spawn_loop (keep forkOk : Nat → Bool) : Nat → Nat → SpawnOut
  | _, 0 => .all
  | n, fuel + 1 =>
    if !keep n then .stopEarly n
    else if !forkOk n then .forkFail n
    else spawn_loop keep forkOk (n + 1) fuel

/-- External inputs of one run of `stress_fiemap` (lines 247-338): the
`fiemap-bytes` setting if present, the maximize/minimize option flags, the
instance count, whether `mmap` / `stress_temp_dir_mk_args` / `open`
succeed (with the externally computed `exit_status` codes on the two
latter failures), whether the initial capability-probe `ioctl` succeeds,
the spawn loop's `keep_stressing` and `fork` oracles, and the driver
iteration inputs. -/
structure SupEnv where
  setting : Option Nat
  maximize : Bool
  minimize : Bool
  num_instances : Nat
  mmapOk : Bool
  tempDirOk : Bool
  tempDirRc : Nat
  openOk : Bool
  openRc : Nat
  probeOk : Bool
  keep : Nat → Bool
  forkOk : Nat → Bool
  writerEnvs : List WriterEnv

/-- Observable outcome of one run of `stress_fiemap`: the returned `rc`,
how many workers were spawned, how many `fork` calls were made, whether
the fragmentation driver ran, how many workers were killed and reaped at
`reap`, and how many times the target file descriptor was closed in the
whole run (the driver's `tidy` close plus the supervisor's `close_clean`
close). -/
structure SupResult where
  rc : Nat
  spawned : Nat
  forkCalls : Nat
  writerRan : Bool
  reaped : Nat
  fdCloses : Nat
  deriving DecidableEq, Repr

/-- Embedding of `stress_fiemap` (lines 247-338).  The effective size is
computed from the setting (or the flag-dependent default) and the instance
count.  `mmap` failure returns `EXIT_NO_RESOURCE` before any file exists.
Temp-dir and `open` failures return their `exit_status` codes with the
descriptor never opened.  A failure of the capability-probe `ioctl`
(line 296) is always treated as unsupported — line 297 hardcodes
`errno = EOPNOTSUPP` before the comparison — so it returns
`EXIT_NOT_IMPLEMENTED` from `close_clean` with no worker spawned and the
driver never run.  Otherwise the spawn loop runs; on an early stop `rc`
becomes `EXIT_SUCCESS`, on a fork failure `rc` keeps its initial
`EXIT_FAILURE`, and only when all `MAX_FIEMAP_PROCS` workers were spawned
does the driver run and decide `rc`.  `reap` kills and waits for exactly
the spawned workers; `close_clean` closes the descriptor once more. -/
def stress_fiemap (env : SupEnv) : SupResult :=
  let size0 :=
    match env.setting with
    | some v => v
    | none =>
      let d := DEFAULT_FIEMAP_SIZE
      let d := if env.maximize then MAXIMIZED_FILE_SIZE else d
      if env.minimize then MIN_FIEMAP_SIZE else d
  let fiemap_bytes := effective_fiemap_bytes size0 env.num_instances
  if !env.mmapOk then ⟨EXIT_NO_RESOURCE, 0, 0, false, 0, 0⟩
  else if !env.tempDirOk then ⟨env.tempDirRc, 0, 0, false, 0, 0⟩
  else if !env.openOk then ⟨env.openRc, 0, 0, false, 0, 0⟩
  else if !env.probeOk then ⟨EXIT_NOT_IMPLEMENTED, 0, 0, false, 0, 1⟩
  else
    match spawn_loop env.keep env.forkOk 0 MAX_FIEMAP_PROCS with
    | .stopEarly n => ⟨EXIT_SUCCESS, n, n, false, n, 1⟩
    | .forkFail n => ⟨EXIT_FAILURE, n, n + 1, false, n, 1⟩
    | .all =>
      let counters : Counters := fun _ => 0
      let w := stress_fiemap_writer fiemap_bytes counters env.writerEnvs
      ⟨w.rc, MAX_FIEMAP_PROCS, MAX_FIEMAP_PROCS, true, MAX_FIEMAP_PROCS,
        (if w.fdClosed then 1 else 0) + 1⟩

/-! ### Counter operations of the whole system -/

/-- The two kinds of program step that touch the shared counter array: a
query-worker ioctl cycle (owning slot `i`) and a fragmentation-driver
iteration. -/
inductive SysOp where
  | workerCycle (i : Fin MAX_FIEMAP_PROCS) (env : CycleEnv)
  | driverIter (len : Nat) (punch_hole : Bool) (env : WriterEnv)

/-- Effect of one program step on the shared counter array, as performed
by the embedded code: a worker cycle increments its own slot exactly when
the cycle succeeds (line 209); a driver iteration's effect is whatever
`stress_fiemap_writer_iter` leaves in the array. -/
def applySysOp (c : Counters) : SysOp → Counters
  | .workerCycle i env =>
    if (stress_fiemap_ioctl_cycle env).incremented then incr_slot c i else c
  | .driverIter len punch_hole env =>
    (stress_fiemap_writer_iter len punch_hole c env).counters

/-- Run a sequence of program steps over the counter array. -/
def runSysOps (c : Counters) (ops : List SysOp) : Counters :=
  ops.foldl applySysOp c

/-- Whether a program step performs a counter increment: exactly the
successful worker cycles do (line 209); driver iterations never write a
slot. -/
def incBit : SysOp → Bool
  | .workerCycle _ env => (stress_fiemap_ioctl_cycle env).incremented
  | .driverIter _ _ _ => false

/-- Number of counter increments performed by a sequence of steps. -/
def countIncs (ops : List SysOp) : Nat :=
  ops.countP incBit

/-- All iterations of a trace issued no hole punch. -/
def noPunches (rs : List IterResult) : Bool :=
  rs.all (·.punchOffset.isNone)

/-! ### Concrete inputs used to instantiate the theorems -/

/-- The all-zero counter array (`memset(counters, 0, counters_sz)`). -/
def zeroCounters : Counters := fun _ => 0

/-- A nonzero counter array: slots 3, 4, 5, 6. -/
def someCounters : Counters := fun i => 3 + i.val

/-- The first worker's counter slot. -/
def slot0 : Fin MAX_FIEMAP_PROCS := ⟨0, by decide⟩

/-- A kernel for which the populate call reports one extent more than the
requested capacity while still returning success. -/
def overflowCycleEnv : CycleEnv :=
  ⟨true, Except.ok 2, true, true,
    fun req => Except.ok (req.fm_extent_count + 1), true⟩

/-- A fully successful query cycle: 5 extents discovered, 5 reported. -/
def okCycleEnv : CycleEnv :=
  ⟨true, Except.ok 5, true, true, fun _ => Except.ok 5, true⟩

/-- A fully successful driver iteration: write and hole punch succeed and
the loop is to continue. -/
def okWriterEnv : WriterEnv :=
  ⟨0, true, true, none, true, 0, none, true, true⟩

/-- A driver iteration whose `write` fails with `ENOSPC`. -/
def enospcWriterEnv : WriterEnv :=
  ⟨0, true, true, some Errno.ENOSPC, true, 0, none, true, true⟩

/-- A driver iteration whose hole punch fails with `EOPNOTSUPP`. -/
def notsuppWriterEnv : WriterEnv :=
  ⟨0, true, true, none, true, 0, some Errno.EOPNOTSUPP, true, true⟩

/-- A run in which everything succeeds but the third `fork` (attempt
index 2) fails. -/
def forkFailSupEnv : SupEnv :=
  ⟨some DEFAULT_FIEMAP_SIZE, false, false, 1, true, true, 0, true, 0,
    true, fun _ => true, fun k => decide (k < 2), []⟩

/-- A run in which everything succeeds but the second `fork` (attempt
index 1) fails. -/
def forkFail1SupEnv : SupEnv :=
  ⟨some DEFAULT_FIEMAP_SIZE, false, false, 1, true, true, 0, true, 0,
    true, fun _ => true, fun k => decide (k < 1), []⟩

/-- A run in which the initial capability-probe query fails. -/
def probeFailSupEnv : SupEnv :=
  ⟨none, false, false, 1, true, true, 0, true, 0, false,
    fun _ => true, fun _ => true, []⟩

/-- A fully successful run: all four workers spawn and the driver runs
(and stops at once because its iteration list is empty). -/
def allOkSupEnv : SupEnv :=
  ⟨some 2097152, false, false, 1, true, true, 0, true, 0, true,
    fun _ => true, fun _ => true, []⟩

/-! ### Helper lemmas -/

/-- A driver iteration never stores to any shared counter slot
(hole-punch half). -/
theorem writer_punch_step_counters (p : Bool) (c : Counters)
    (env : WriterEnv) (len off : Nat) :
    (writer_punch_step p c env len off).counters = c := by
  unfold writer_punch_step
  repeat' split
  all_goals rfl

/-- A driver iteration never stores to any shared counter slot. -/
theorem writer_iter_counters (len : Nat) (p : Bool) (c : Counters)
    (env : WriterEnv) :
    (stress_fiemap_writer_iter len p c env).counters = c := by
  unfold stress_fiemap_writer_iter
  repeat' split
  all_goals first
    | rfl
    | exact writer_punch_step_counters ..

/-- Folding the wrapping accumulator over a list equals one final wrap of
the unbounded sum. -/
theorem foldl_mod_sum (c : Counters) :
    ∀ (l : List (Fin MAX_FIEMAP_PROCS)) (a : Nat),
      List.foldl (fun counter i => (counter + c i) % UINT64_MOD)
          (a % UINT64_MOD) l =
        (a + (l.map c).sum) % UINT64_MOD := by
  intro l
  induction l with
  | nil => intro a; simp
  | cons i t ih =>
    intro a
    simp only [List.foldl_cons, List.map_cons, List.sum_cons]
    rw [Nat.mod_add_mod, ih (a + c i), Nat.add_assoc]

/-- The wrapped aggregate is the sum of the slots reduced mod `2 ^ 64`. -/
theorem stress_fiemap_count_eq_sum (c : Counters) :
    stress_fiemap_count c =
      (∑ i : Fin MAX_FIEMAP_PROCS, c i) % UINT64_MOD := by
  have h := foldl_mod_sum c (List.finRange MAX_FIEMAP_PROCS) 0
  simpa [stress_fiemap_count, Fin.sum_univ_def] using h

/-- The aggregate is always below the 64-bit modulus. -/
theorem stress_fiemap_count_lt (c : Counters) :
    stress_fiemap_count c < UINT64_MOD := by
  rw [stress_fiemap_count_eq_sum]
  exact Nat.mod_lt _ (by decide)

/-- Incrementing one slot advances the aggregate by one, mod `2 ^ 64`. -/
theorem sum_incr_slot (c : Counters) (i : Fin MAX_FIEMAP_PROCS) :
    stress_fiemap_count (incr_slot c i) =
      (stress_fiemap_count c + 1) % UINT64_MOD := by
  rw [stress_fiemap_count_eq_sum, stress_fiemap_count_eq_sum]
  unfold incr_slot
  rw [Finset.sum_update_of_mem (Finset.mem_univ i), ← Finset.erase_eq,
    Nat.mod_add_mod, Nat.mod_add_mod,
    ← Finset.sum_erase_add _ _ (Finset.mem_univ i)]
  congr 1
  omega

/-- With the `punch_hole` flag off, the hole-punch half of the body
reduces to the `continue` that skips the punch. -/
theorem writer_punch_step_false (c : Counters) (env : WriterEnv)
    (len off : Nat) :
    writer_punch_step false c env len off =
      if !env.keep2 then ⟨.exitSuccess, c, off, none⟩
      else
        ⟨if env.keepLoop then .nextIter false else .exitSuccess,
          c, off, none⟩ := by
  simp [writer_punch_step]

/-- With the `punch_hole` flag off, an iteration issues no hole punch. -/
theorem writer_iter_false_punchOffset (len : Nat) (c : Counters)
    (env : WriterEnv) :
    (stress_fiemap_writer_iter len false c env).punchOffset = none := by
  simp only [stress_fiemap_writer_iter, writer_punch_step_false]
  repeat' split
  all_goals rfl

/-- With the `punch_hole` flag off, an iteration keeps the flag off. -/
theorem writer_iter_false_next (len : Nat) (c : Counters)
    (env : WriterEnv) (p' : Bool) :
    (stress_fiemap_writer_iter len false c env).out = .nextIter p' →
      p' = false := by
  simp only [stress_fiemap_writer_iter, writer_punch_step_false]
  intro h
  repeat' split at h
  all_goals simp_all

/-- With the `punch_hole` flag off at entry, no iteration of the rest of
the run issues a hole punch. -/
theorem writer_loop_false_noPunches (len : Nat) :
    ∀ (envs : List WriterEnv) (c : Counters),
      noPunches (stress_fiemap_writer_loop len false c envs).2 = true := by
  intro envs
  induction envs with
  | nil => intro c; rfl
  | cons env rest ih =>
    intro c
    cases hout : (stress_fiemap_writer_iter len false c env).out with
    | exitSuccess =>
      simp [stress_fiemap_writer_loop, hout, noPunches,
        writer_iter_false_punchOffset]
    | exitFailure =>
      simp [stress_fiemap_writer_loop, hout, noPunches,
        writer_iter_false_punchOffset]
    | nextIter p' =>
      have hp' := writer_iter_false_next len c env p' hout
      subst hp'
      simp only [stress_fiemap_writer_loop, hout, noPunches, List.all_cons,
        writer_iter_false_punchOffset, Option.isNone_none, Bool.true_and]
      exact ih _

/-- A hole punch step whose `fallocate` failed with `EOPNOTSUPP` hands
the next iteration a cleared `punch_hole` flag. -/
theorem writer_punch_step_notsupp_next_false (p : Bool) (c : Counters)
    (env : WriterEnv) (len off : Nat) (p' : Bool)
    (hf : env.fallocRes = some Errno.EOPNOTSUPP)
    (hout : (writer_punch_step p c env len off).out = .nextIter p') :
    p' = false := by
  unfold writer_punch_step at hout
  repeat' split at hout
  all_goals simp_all

/-- An iteration that issued a hole punch which failed with `EOPNOTSUPP`
hands the next iteration a cleared `punch_hole` flag. -/
theorem writer_iter_notsupp_next_false (len : Nat) (p : Bool)
    (c : Counters) (env : WriterEnv) (p' : Bool)
    (hf : env.fallocRes = some Errno.EOPNOTSUPP)
    (hsome : (stress_fiemap_writer_iter len p c env).punchOffset.isSome =
      true)
    (hout : (stress_fiemap_writer_iter len p c env).out = .nextIter p') :
    p' = false := by
  unfold stress_fiemap_writer_iter at hsome hout
  split at hout
  · simp_all
  split at hout
  · simp_all
  split at hout
  · split at hout
    · simp_all
    split at hout
    · exact writer_punch_step_notsupp_next_false p c env _ _ p' hf hout
    · simp_all
  · exact writer_punch_step_notsupp_next_false p c env _ _ p' hf hout

/-- The hole-punch half of the body never produces the fatal exit. -/
theorem writer_punch_step_no_exitFailure (p : Bool) (c : Counters)
    (env : WriterEnv) (len off : Nat) :
    ¬(writer_punch_step p c env len off).out = .exitFailure := by
  unfold writer_punch_step
  repeat' split
  all_goals simp_all

/-- The only fatal exit of a driver iteration is a `write` failure with an
errno other than `ENOSPC`, `EAGAIN` and `EINTR`, reached with `lseek` and
the first `keep_stressing` check passed. -/
theorem writer_iter_exitFailure_write (len : Nat) (p : Bool)
    (c : Counters) (env : WriterEnv)
    (h : (stress_fiemap_writer_iter len p c env).out = .exitFailure) :
    env.lseekOk = true ∧ env.keep1 = true ∧
      ∃ e, env.writeRes = some e ∧ e ≠ Errno.ENOSPC ∧
        e ≠ Errno.EAGAIN ∧ e ≠ Errno.EINTR := by
  unfold stress_fiemap_writer_iter at h
  split at h
  · simp_all
  · split at h
    · simp_all
    · split at h
      · next e heq =>
        split at h
        · split at h <;> simp_all
        · split at h
          · exact absurd h (writer_punch_step_no_exitFailure p c env len _)
          · exact ⟨by simp_all, by simp_all, e, heq, by simp_all,
              by simp_all, by simp_all⟩
      · exact absurd h (writer_punch_step_no_exitFailure p c env len _)

/-- The driver loop only ever returns `EXIT_SUCCESS` or `EXIT_FAILURE`. -/
theorem writer_loop_rc (len : Nat) :
    ∀ (envs : List WriterEnv) (p : Bool) (c : Counters),
      (stress_fiemap_writer_loop len p c envs).1 = EXIT_SUCCESS ∨
        (stress_fiemap_writer_loop len p c envs).1 = EXIT_FAILURE := by
  intro envs
  induction envs with
  | nil => intro p c; left; rfl
  | cons env rest ih =>
    intro p c
    cases hout : (stress_fiemap_writer_iter len p c env).out with
    | exitSuccess => left; simp [stress_fiemap_writer_loop, hout]
    | exitFailure => right; simp [stress_fiemap_writer_loop, hout]
    | nextIter p' =>
      simpa [stress_fiemap_writer_loop, hout] using ih p' _

/-- If the driver loop returns `EXIT_FAILURE`, some executed iteration had
a `write` failure with an errno other than `ENOSPC`, `EAGAIN`, `EINTR`. -/
theorem writer_loop_failure_write (len : Nat) :
    ∀ (envs : List WriterEnv) (p : Bool) (c : Counters),
      (stress_fiemap_writer_loop len p c envs).1 = EXIT_FAILURE →
        ∃ env ∈ envs, env.lseekOk = true ∧ env.keep1 = true ∧
          ∃ e, env.writeRes = some e ∧ e ≠ Errno.ENOSPC ∧
            e ≠ Errno.EAGAIN ∧ e ≠ Errno.EINTR := by
  intro envs
  induction envs with
  | nil =>
    intro p c h
    simp [stress_fiemap_writer_loop, EXIT_SUCCESS, EXIT_FAILURE] at h
  | cons env rest ih =>
    intro p c h
    cases hout : (stress_fiemap_writer_iter len p c env).out with
    | exitSuccess =>
      rw [stress_fiemap_writer_loop] at h
      simp [hout, EXIT_SUCCESS, EXIT_FAILURE] at h
    | exitFailure =>
      exact ⟨env, List.mem_cons_self env rest,
        writer_iter_exitFailure_write len p c env hout⟩
    | nextIter p' =>
      rw [stress_fiemap_writer_loop] at h
      simp only [hout] at h
      obtain ⟨e₀, he₀, hrest⟩ := ih p' _ h
      exact ⟨e₀, List.mem_cons_of_mem env he₀, hrest⟩

/-- The write offset of every driver iteration is the first random draw
reduced modulo `len` and aligned down to an 8 KiB boundary. -/
theorem writer_iter_writeOffset (len : Nat) (p : Bool) (c : Counters)
    (env : WriterEnv) :
    (stress_fiemap_writer_iter len p c env).writeOffset =
      Nat.land (env.rnd1 % len) 0xffffffffffffe000 := by
  unfold stress_fiemap_writer_iter writer_punch_step
  repeat' split
  all_goals rfl

/-- The hole-punch half of the body never looks at the `write` result. -/
theorem writer_punch_step_writeRes (p : Bool) (c : Counters)
    (env : WriterEnv) (x : Option Errno) (len off : Nat) :
    writer_punch_step p c { env with writeRes := x } len off =
      writer_punch_step p c env len off := rfl

/-- The `rc` returned by the driver is the one its loop produced. -/
theorem stress_fiemap_writer_rc (fb : Nat) (c : Counters)
    (envs : List WriterEnv) :
    (stress_fiemap_writer fb c envs).rc =
      (stress_fiemap_writer_loop (fb - 1) true c envs).1 := by
  simp only [stress_fiemap_writer]
  split <;> rfl

/-- The driver closes the file descriptor on both of its return paths. -/
theorem stress_fiemap_writer_fdClosed (fb : Nat) (c : Counters)
    (envs : List WriterEnv) :
    (stress_fiemap_writer fb c envs).fdClosed = true := by
  simp only [stress_fiemap_writer]
  split <;> rfl

/-! ### Claims -/

/-- Claim C4: for every requested total file size `S` in the valid
configured range and every instance count `n ≥ 1`, the effective
per-instance working length equals `max (S / n) MIN_FIEMAP_SIZE` (integer
division, clamped up to the minimum). -/
theorem fiemap_effective_length_max (S n : Nat)
    (hmin : MIN_FIEMAP_SIZE ≤ S) (hmax : S ≤ MAX_FIEMAP_SIZE)
    (hn : 1 ≤ n) :
    effective_fiemap_bytes S n = max (S / n) MIN_FIEMAP_SIZE := by
  simp only [effective_fiemap_bytes]
  split <;> omega

/-- Witness: a 10 MiB request split over 4 instances. -/
theorem fiemap_effective_length_max_witness :
    MIN_FIEMAP_SIZE ≤ 10485760 ∧ 10485760 ≤ MAX_FIEMAP_SIZE ∧ 1 ≤ 4 ∧
      effective_fiemap_bytes 10485760 4 =
        max (10485760 / 4) MIN_FIEMAP_SIZE :=
  ⟨by decide, by decide, by decide,
    fiemap_effective_length_max 10485760 4 (by decide) (by decide)
      (by decide)⟩

/-- Claim C3: if the supervisor's initial capability-probe query fails,
the run returns the distinguished `EXIT_NOT_IMPLEMENTED` status — which is
neither the failure status nor the success status — no query worker is
spawned (no `fork` is even attempted) and the fragmentation driver never
runs. -/
theorem fiemap_probe_unsupported_not_impl (env : SupEnv)
    (hm : env.mmapOk = true) (ht : env.tempDirOk = true)
    (ho : env.openOk = true) (hp : env.probeOk = false) :
    (stress_fiemap env).rc = EXIT_NOT_IMPLEMENTED ∧
      (stress_fiemap env).spawned = 0 ∧
      (stress_fiemap env).forkCalls = 0 ∧
      (stress_fiemap env).writerRan = false ∧
      (stress_fiemap env).rc ≠ EXIT_FAILURE ∧
      (stress_fiemap env).rc ≠ EXIT_SUCCESS := by
  unfold stress_fiemap
  simp [hm, ht, ho, hp, EXIT_NOT_IMPLEMENTED, EXIT_FAILURE, EXIT_SUCCESS]

/-- Witness: a concrete run whose capability probe fails. -/
theorem fiemap_probe_unsupported_not_impl_witness :
    (stress_fiemap probeFailSupEnv).rc = EXIT_NOT_IMPLEMENTED ∧
      (stress_fiemap probeFailSupEnv).spawned = 0 ∧
      (stress_fiemap probeFailSupEnv).forkCalls = 0 ∧
      (stress_fiemap probeFailSupEnv).writerRan = false :=
  ⟨(fiemap_probe_unsupported_not_impl probeFailSupEnv rfl rfl rfl rfl).1,
    (fiemap_probe_unsupported_not_impl probeFailSupEnv rfl rfl rfl
      rfl).2.1,
    (fiemap_probe_unsupported_not_impl probeFailSupEnv rfl rfl rfl
      rfl).2.2.1,
    (fiemap_probe_unsupported_not_impl probeFailSupEnv rfl rfl rfl
      rfl).2.2.2.1⟩

/-- Claim C2 counterexample: with `fork` failing at the third spawn
attempt and every other step of the run succeeding, the supervisor stops
spawning (three fork calls), spawns and reaps only two workers and the
driver never runs — but the run returns the generic failure status
`EXIT_FAILURE`, so the partial fan-out alone is treated as fatal. -/
theorem fiemap_fork_fail_is_failure :
    stress_fiemap forkFailSupEnv =
      ⟨EXIT_FAILURE, 2, 3, false, 2, 1⟩ := by decide

/-- Claim C2 (amended): if `fork` fails at spawn attempt `n`, the
supervisor stops spawning further workers (exactly `n + 1` fork calls are
made) and reaps exactly the `n` workers already created, and the
fragmentation driver never runs; however the run's exit status is the
generic failure `EXIT_FAILURE` — `rc` keeps its initial failure value on
this path — so the partial fan-out alone does make the run exit as a
failure. -/
theorem fiemap_fork_fail_partial (env : SupEnv) (n : Nat)
    (hm : env.mmapOk = true) (ht : env.tempDirOk = true)
    (ho : env.openOk = true) (hp : env.probeOk = true)
    (hs : spawn_loop env.keep env.forkOk 0 MAX_FIEMAP_PROCS =
      .forkFail n) :
    stress_fiemap env = ⟨EXIT_FAILURE, n, n + 1, false, n, 1⟩ := by
  unfold stress_fiemap
  simp [hm, ht, ho, hp, hs]

/-- Witness: the second `fork` fails; one worker spawned and reaped. -/
theorem fiemap_fork_fail_partial_witness :
    stress_fiemap forkFail1SupEnv =
      ⟨EXIT_FAILURE, 1, 2, false, 1, 1⟩ :=
  fiemap_fork_fail_partial forkFail1SupEnv 1 rfl rfl rfl rfl (by decide)

/-- Claim C1 counterexample: the kernel's populate call succeeds while
reporting 3 extents against the requested capacity of 2 — and the query
cycle does not fail: the answer is accepted as valid, the worker's counter
is incremented and the worker's loop continues. -/
theorem fiemap_cycle_overflow_accepted :
    (stress_fiemap_ioctl_cycle overflowCycleEnv).populateReq =
        some ⟨FM_LENGTH_ALL, 2, 0⟩ ∧
      (stress_fiemap_ioctl_cycle overflowCycleEnv).outcome =
        CycleOutcome.success 3 ∧
      2 < 3 ∧
      (stress_fiemap_ioctl_cycle overflowCycleEnv).incremented = true ∧
      (stress_fiemap_ioctl_cycle overflowCycleEnv).continues = true :=
  ⟨rfl, rfl, by decide, rfl, rfl⟩

/-- Claim C1 (amended): in every extent-query cycle that reaches the
populate call, the populate request's `fm_extent_count` equals the
discovery call's reported `fm_mapped_extents` and its
`fm_mapped_extents` field is reset to zero; but the count reported by a
successful populate call is never validated against that capacity — any
successful populate call is treated as a valid answer (the worker's
counter is incremented), whatever count it reports. -/
theorem fiemap_cycle_populate_capacity (env : CycleEnv) (m : Nat)
    (req : Fiemap) (hd : env.discovery = Except.ok m)
    (hreq : (stress_fiemap_ioctl_cycle env).populateReq = some req) :
    req.fm_extent_count = m ∧ req.fm_mapped_extents = 0 ∧
      ∀ reported, env.populate req = Except.ok reported →
        (stress_fiemap_ioctl_cycle env).outcome =
            CycleOutcome.success reported ∧
          (stress_fiemap_ioctl_cycle env).incremented = true := by
  obtain ⟨callocOk, discovery, keep, reallocOk, populate, keepLoop⟩ := env
  simp only at hd
  subst hd
  cases callocOk with
  | false => simp [stress_fiemap_ioctl_cycle] at hreq
  | true =>
    cases keep with
    | false => simp [stress_fiemap_ioctl_cycle] at hreq
    | true =>
      cases reallocOk with
      | false => simp [stress_fiemap_ioctl_cycle] at hreq
      | true =>
        cases hpop : populate ⟨FM_LENGTH_ALL, m, 0⟩ with
        | error e =>
          simp only [stress_fiemap_ioctl_cycle, hpop] at hreq ⊢
          simp at hreq
          subst hreq
          refine ⟨rfl, rfl, ?_⟩
          intro reported hrep
          simp [hpop] at hrep
        | ok r =>
          simp only [stress_fiemap_ioctl_cycle, hpop] at hreq ⊢
          simp at hreq
          subst hreq
          refine ⟨rfl, rfl, ?_⟩
          intro reported hrep
          rw [hpop] at hrep
          cases hrep
          simp [stress_fiemap_ioctl_cycle, hpop]

/-- Witness: a cycle discovering 5 extents issues a populate request with
capacity 5, and its successful answer of 5 is accepted. -/
theorem fiemap_cycle_populate_capacity_witness :
    (stress_fiemap_ioctl_cycle okCycleEnv).outcome =
        CycleOutcome.success 5 ∧
      (stress_fiemap_ioctl_cycle okCycleEnv).incremented = true :=
  (fiemap_cycle_populate_capacity okCycleEnv 5 ⟨FM_LENGTH_ALL, 5, 0⟩ rfl
    rfl).2.2 5 rfl

/-- Claim C5 counterexample: a fully completed fragmentation-driver
iteration (write succeeded, hole punch succeeded, loop continuing) leaves
every shared counter slot exactly as it was — the driver increments no
slot of its own; all `MAX_FIEMAP_PROCS` slots belong to the forked query
workers. -/
theorem fiemap_driver_increments_no_slot :
    (stress_fiemap_writer_iter 8192 true someCounters okWriterEnv).out =
        IterOutcome.nextIter true ∧
      (stress_fiemap_writer_iter 8192 true someCounters
          okWriterEnv).counters = someCounters ∧
      stress_fiemap_count (stress_fiemap_writer_iter 8192 true
          someCounters okWriterEnv).counters =
        stress_fiemap_count someCounters :=
  ⟨rfl, rfl, rfl⟩

/-- Claim C5 (amended): each shared counter slot is written only by its
owning query worker — a worker cycle changes no slot other than its own,
and increments its own (a 64-bit increment, wrapping at `2 ^ 64`) exactly
when the cycle succeeds — while a fragmentation-driver iteration writes
no slot at all; the driver only reads the slots, and the aggregate it
computes is the 64-bit sum of all of them. -/
theorem fiemap_counter_ownership (c : Counters)
    (i : Fin MAX_FIEMAP_PROCS) (cenv : CycleEnv) (len : Nat) (p : Bool)
    (wenv : WriterEnv) :
    (∀ j, j ≠ i → applySysOp c (SysOp.workerCycle i cenv) j = c j) ∧
      ((stress_fiemap_ioctl_cycle cenv).incremented = true →
        applySysOp c (SysOp.workerCycle i cenv) i =
          (c i + 1) % UINT64_MOD) ∧
      applySysOp c (SysOp.driverIter len p wenv) = c ∧
      stress_fiemap_count c =
        (∑ k : Fin MAX_FIEMAP_PROCS, c k) % UINT64_MOD := by
  refine ⟨?_, ?_, ?_, stress_fiemap_count_eq_sum c⟩
  · intro j hj
    simp only [applySysOp]
    split
    · exact Function.update_noteq hj _ c
    · rfl
  · intro hinc
    simp [applySysOp, hinc, incr_slot]
  · exact writer_iter_counters len p c wenv

/-- Witness: a successful worker cycle raises slot 0 from 0 to 1. -/
theorem fiemap_counter_ownership_witness :
    applySysOp zeroCounters (SysOp.workerCycle slot0 okCycleEnv) slot0 =
      (zeroCounters slot0 + 1) % UINT64_MOD :=
  (fiemap_counter_ownership zeroCounters slot0 okCycleEnv 8192 true
    okWriterEnv).2.1 rfl

/-- Claim C6: once an iteration's issued hole-punch request fails with
`EOPNOTSUPP` ("not supported"), no subsequent iteration of the
fragmentation driver in that run issues a hole-punch request. -/
theorem fiemap_punch_disabled_forever (len : Nat) (p : Bool)
    (c : Counters) (env : WriterEnv) (p' : Bool) (rest : List WriterEnv)
    (hf : env.fallocRes = some Errno.EOPNOTSUPP)
    (hsome : (stress_fiemap_writer_iter len p c env).punchOffset.isSome =
      true)
    (hout : (stress_fiemap_writer_iter len p c env).out = .nextIter p') :
    noPunches (stress_fiemap_writer_loop len p'
      (stress_fiemap_writer_iter len p c env).counters rest).2 = true := by
  have hfalse := writer_iter_notsupp_next_false len p c env p' hf hsome
    hout
  subst hfalse
  exact writer_loop_false_noPunches len rest _

/-- Witness: after a hole punch fails with `EOPNOTSUPP`, two further
iterations run and neither issues a punch. -/
theorem fiemap_punch_disabled_forever_witness :
    noPunches (stress_fiemap_writer_loop 8192 false
      (stress_fiemap_writer_iter 8192 true zeroCounters
        notsuppWriterEnv).counters
      [notsuppWriterEnv, notsuppWriterEnv]).2 = true :=
  fiemap_punch_disabled_forever 8192 true zeroCounters notsuppWriterEnv
    false [notsuppWriterEnv, notsuppWriterEnv] rfl (by decide) (by decide)

/-- Claim C7: in the driver's write step, an `ENOSPC` failure retries the
loop (the iteration proceeds to the next one, having issued no hole
punch); `EAGAIN` and `EINTR` are non-fatal and the iteration behaves
exactly as if the write had succeeded; a write failure with any other
errno is the fatal exit; and the driver's loop returns a failure status
only when some iteration had such a fatal write failure. -/
theorem fiemap_writer_write_errors (len : Nat) (p : Bool)
    (c : Counters) :
    (∀ env : WriterEnv, env.lseekOk = true → env.keep1 = true →
      env.writeRes = some Errno.ENOSPC → env.keepLoop = true →
        (stress_fiemap_writer_iter len p c env).out = .nextIter p ∧
          (stress_fiemap_writer_iter len p c env).punchOffset = none) ∧
      (∀ env : WriterEnv, env.writeRes = some Errno.EAGAIN ∨
          env.writeRes = some Errno.EINTR →
        stress_fiemap_writer_iter len p c env =
          stress_fiemap_writer_iter len p c
            { env with writeRes := none }) ∧
      (∀ (env : WriterEnv) (e : Errno), env.lseekOk = true →
        env.keep1 = true → env.writeRes = some e → e ≠ Errno.ENOSPC →
        e ≠ Errno.EAGAIN → e ≠ Errno.EINTR →
          (stress_fiemap_writer_iter len p c env).out = .exitFailure) ∧
      (∀ envs : List WriterEnv,
        (stress_fiemap_writer_loop len p c envs).1 = EXIT_FAILURE →
          ∃ env ∈ envs, env.lseekOk = true ∧ env.keep1 = true ∧
            ∃ e, env.writeRes = some e ∧ e ≠ Errno.ENOSPC ∧
              e ≠ Errno.EAGAIN ∧ e ≠ Errno.EINTR) := by
  refine ⟨?_, ?_, ?_, fun envs h => writer_loop_failure_write len envs p
    c h⟩
  · intro env h1 h2 h3 h4
    constructor <;> simp [stress_fiemap_writer_iter, h1, h2, h3, h4]
  · intro env h
    rcases h with h | h <;>
      simp [stress_fiemap_writer_iter, h, writer_punch_step_writeRes]
  · intro env e h1 h2 h3 h4 h5 h6
    simp [stress_fiemap_writer_iter, h1, h2, h3, h4, h5, h6]

/-- Witness: an `ENOSPC` write failure retries without punching. -/
theorem fiemap_writer_write_errors_witness :
    (stress_fiemap_writer_iter 8192 true zeroCounters
        enospcWriterEnv).out = IterOutcome.nextIter true ∧
      (stress_fiemap_writer_iter 8192 true zeroCounters
        enospcWriterEnv).punchOffset = none :=
  (fiemap_writer_write_errors 8192 true zeroCounters).1 enospcWriterEnv
    rfl rfl rfl rfl

/-- A replicated step performs one increment per copy (or none). -/
theorem countIncs_replicate (k : Nat) (op : SysOp) :
    countIncs (List.replicate k op) = if incBit op then k else 0 := by
  induction k with
  | zero => simp [countIncs]
  | succ n ih =>
    simp only [countIncs, List.replicate_succ, List.countP_cons] at ih ⊢
    split <;> simp_all

/-- The aggregate after a sequence of steps is the starting aggregate
plus the number of increments performed, wrapped at `2 ^ 64`. -/
theorem runSysOps_count :
    ∀ (ops : List SysOp) (c : Counters),
      stress_fiemap_count (runSysOps c ops) =
        (stress_fiemap_count c + countIncs ops) % UINT64_MOD := by
  intro ops
  induction ops with
  | nil =>
    intro c
    simp only [runSysOps, List.foldl_nil, countIncs, List.countP_nil,
      Nat.add_zero]
    exact (Nat.mod_eq_of_lt (stress_fiemap_count_lt c)).symm
  | cons op rest ih =>
    intro c
    have hrun : runSysOps c (op :: rest) =
        runSysOps (applySysOp c op) rest := rfl
    rw [hrun, ih (applySysOp c op)]
    cases op with
    | workerCycle i env =>
      by_cases hinc : (stress_fiemap_ioctl_cycle env).incremented = true
      · have h1 : applySysOp c (SysOp.workerCycle i env) =
            incr_slot c i := by
          simp [applySysOp, hinc]
        have h2 : countIncs (SysOp.workerCycle i env :: rest) =
            countIncs rest + 1 := by
          simp [countIncs, List.countP_cons, incBit, hinc]
        rw [h1, sum_incr_slot, Nat.mod_add_mod, h2]
        congr 1
        omega
      · have h1 : applySysOp c (SysOp.workerCycle i env) = c := by
          simp [applySysOp, hinc]
        have h2 : countIncs (SysOp.workerCycle i env :: rest) =
            countIncs rest := by
          simp [countIncs, List.countP_cons, incBit, hinc]
        rw [h1, h2]
    | driverIter len p env =>
      have h1 : applySysOp c (SysOp.driverIter len p env) = c := by
        simp [applySysOp, writer_iter_counters]
      have h2 : countIncs (SysOp.driverIter len p env :: rest) =
          countIncs rest := by
        simp [countIncs, List.countP_cons, incBit]
      rw [h1, h2]

/-- Claim C8 counterexample: the counter slots are wrapping 64-bit
integers, so along the concrete run that performs `2 ^ 64` successful
worker cycles on slot 0 starting from the zero-initialized array, the
published aggregate reaches `2 ^ 64 - 1` and then wraps to `0` on the
next increment: the aggregate decreases, refuting unconditional
monotonicity over the run's lifetime. -/
theorem fiemap_aggregate_wraps :
    stress_fiemap_count (runSysOps zeroCounters
        (List.replicate (UINT64_MOD - 1)
          (SysOp.workerCycle slot0 okCycleEnv))) = UINT64_MOD - 1 ∧
      stress_fiemap_count (runSysOps zeroCounters
        (List.replicate UINT64_MOD
          (SysOp.workerCycle slot0 okCycleEnv))) = 0 ∧
      0 < UINT64_MOD - 1 := by
  have hbit : incBit (SysOp.workerCycle slot0 okCycleEnv) = true := rfl
  have hz : stress_fiemap_count zeroCounters = 0 := by decide
  have hM : 1 < UINT64_MOD := by decide
  have h1 := runSysOps_count
    (List.replicate (UINT64_MOD - 1) (SysOp.workerCycle slot0 okCycleEnv))
    zeroCounters
  have h2 := runSysOps_count
    (List.replicate UINT64_MOD (SysOp.workerCycle slot0 okCycleEnv))
    zeroCounters
  rw [countIncs_replicate, hbit, if_pos rfl, hz, Nat.zero_add] at h1 h2
  refine ⟨?_, ?_, by omega⟩
  · rw [h1]
    exact Nat.mod_eq_of_lt (by omega)
  · rw [h2]
    exact Nat.mod_self UINT64_MOD

/-- Claim C8 (amended): every program step advances the published
aggregate — the wrapping 64-bit sum of all shared counter slots computed
by `stress_fiemap_count` — by exactly the number of increments it
performs, mod `2 ^ 64`; consequently, starting from the zero-initialized
array, the aggregate is monotonically non-decreasing over any portion of
the run in which the total number of increments stays below `2 ^ 64`
(every operation on a slot is an increment and no step decrements or
resets a slot, but the 64-bit wrap breaks monotonicity once `2 ^ 64`
increments have occurred). -/
theorem fiemap_aggregate_wrap_monotone :
    (∀ (c : Counters) (ops : List SysOp),
        stress_fiemap_count (runSysOps c ops) =
          (stress_fiemap_count c + countIncs ops) % UINT64_MOD) ∧
      ∀ (pre ext : List SysOp),
        countIncs pre + countIncs ext < UINT64_MOD →
        stress_fiemap_count (runSysOps zeroCounters pre) ≤
          stress_fiemap_count (runSysOps zeroCounters (pre ++ ext)) := by
  refine ⟨fun c ops => runSysOps_count ops c, ?_⟩
  intro pre ext hlt
  have hz : stress_fiemap_count zeroCounters = 0 := by decide
  have hpre := runSysOps_count pre zeroCounters
  have happ := runSysOps_count (pre ++ ext) zeroCounters
  have hcnt : countIncs (pre ++ ext) = countIncs pre + countIncs ext := by
    simp [countIncs, List.countP_append]
  rw [hz, Nat.zero_add] at hpre happ
  rw [hcnt] at happ
  rw [hpre, happ, Nat.mod_eq_of_lt (by omega), Nat.mod_eq_of_lt hlt]
  omega

/-- Witness: two successful worker cycles; the aggregate after the first
is at most the aggregate after both. -/
theorem fiemap_aggregate_wrap_monotone_witness :
    stress_fiemap_count (runSysOps zeroCounters
        [SysOp.workerCycle slot0 okCycleEnv]) ≤
      stress_fiemap_count (runSysOps zeroCounters
        ([SysOp.workerCycle slot0 okCycleEnv] ++
          [SysOp.workerCycle slot0 okCycleEnv])) :=
  fiemap_aggregate_wrap_monotone.2 [SysOp.workerCycle slot0 okCycleEnv]
    [SysOp.workerCycle slot0 okCycleEnv] (by decide)

/-- Claim C9: the fragmentation driver closes the shared file descriptor
on every return path — its result is always one of `EXIT_SUCCESS` and
`EXIT_FAILURE`, and in both cases the descriptor has been closed — and in
a run where the driver ran, the supervisor's teardown closes the same
descriptor a second time, for two closes of the descriptor in total. -/
theorem fiemap_double_close (fb : Nat) (c : Counters)
    (envs : List WriterEnv) (env : SupEnv)
    (hm : env.mmapOk = true) (ht : env.tempDirOk = true)
    (ho : env.openOk = true) (hp : env.probeOk = true)
    (hall : spawn_loop env.keep env.forkOk 0 MAX_FIEMAP_PROCS = .all) :
    ((stress_fiemap_writer fb c envs).rc = EXIT_SUCCESS ∨
        (stress_fiemap_writer fb c envs).rc = EXIT_FAILURE) ∧
      (stress_fiemap_writer fb c envs).fdClosed = true ∧
      (stress_fiemap env).fdCloses = 2 := by
  refine ⟨?_, stress_fiemap_writer_fdClosed fb c envs, ?_⟩
  · rw [stress_fiemap_writer_rc]
    exact writer_loop_rc (fb - 1) envs true c
  · unfold stress_fiemap
    simp [hm, ht, ho, hp, hall, stress_fiemap_writer_fdClosed]

/-- Witness: a fully successful run closes the descriptor twice. -/
theorem fiemap_double_close_witness :
    ((stress_fiemap_writer 2097152 zeroCounters []).rc = EXIT_SUCCESS ∨
        (stress_fiemap_writer 2097152 zeroCounters []).rc =
          EXIT_FAILURE) ∧
      (stress_fiemap_writer 2097152 zeroCounters []).fdClosed = true ∧
      (stress_fiemap allOkSupEnv).fdCloses = 2 :=
  fiemap_double_close 2097152 zeroCounters [] allOkSupEnv rfl rfl rfl rfl
    (by decide)

/-- Claim C10: when the per-instance working length is at least
`MIN_FIEMAP_SIZE` (which exceeds the 1-byte probe), the modulus
`len = fiemap_bytes - 1` used for the random offsets is strictly positive
— so the offset computation never reduces modulo zero — and the
block-aligned write offset of every driver iteration is strictly below
`fiemap_bytes - 1`. -/
theorem fiemap_write_offset_bounded (fiemap_bytes : Nat) (p : Bool)
    (c : Counters) (env : WriterEnv)
    (h : MIN_FIEMAP_SIZE ≤ fiemap_bytes) :
    0 < fiemap_bytes - 1 ∧
      (stress_fiemap_writer_iter (fiemap_bytes - 1) p c
          env).writeOffset < fiemap_bytes - 1 := by
  have hmin : MIN_FIEMAP_SIZE = 1048576 := rfl
  have hlen : 0 < fiemap_bytes - 1 := by omega
  refine ⟨hlen, ?_⟩
  rw [writer_iter_writeOffset]
  calc Nat.land (env.rnd1 % (fiemap_bytes - 1)) 0xffffffffffffe000
      ≤ env.rnd1 % (fiemap_bytes - 1) := Nat.and_le_left
    _ < fiemap_bytes - 1 := Nat.mod_lt _ hlen

/-- Witness: the minimum working length gives a positive modulus and a
bounded write offset. -/
theorem fiemap_write_offset_bounded_witness :
    0 < 1048576 - 1 ∧
      (stress_fiemap_writer_iter (1048576 - 1) true zeroCounters
          okWriterEnv).writeOffset < 1048576 - 1 :=
  fiemap_write_offset_bounded 1048576 true zeroCounters okWriterEnv
    (by decide)
